import Mathlib

/-!
Verification of the distributed token-bucket rate limiter of the
booking-tickets API gateway (`internal/app/middleware/rate_limiter.go` and
`internal/app/config/config.go`).

Embedding conventions:
- Go `float64` quantities (refill rate, elapsed seconds) are modelled by
  exact rationals `ℚ`; `time.Time` values are rationals counting seconds
  since the Unix epoch, and `t.Unix()` is `⌊t⌋` (the Go representation
  stores a second field plus a nonnegative sub-second part, so `Unix`
  floors).
- The Go conversion `int(f)` truncates toward zero; it is modelled by
  `goInt`.
- Redis string values are abstracted by `RedisVal`: `empty` is a missing
  key (a `redis.Nil` `Get` leaves `Val() = ""`), `intStr n` is a decimal
  string parsing to the integer `n` (every value the code writes is of
  this form), and `corrupt` is a non-empty string on which
  `strconv.Atoi` / `strconv.ParseInt` fails.  Only these three cases are
  distinguishable by the operations the code performs.
- The two Redis pipeline round trips (the `Get` pipeline and the `Set`
  pipeline) are each one atomic interaction with the store; possible
  failures of either are modelled by boolean flags.
-/

/-- Go conversion from float64 to int: truncation toward zero (for a
negative argument the value is the negated floor of the negation, that
is, the ceiling). -/
def goInt (q : ℚ) : ℤ :=
  if 0 ≤ q then ⌊q⌋ else -⌊-q⌋

/-- Value held by a Redis key, abstracted to the observations the code makes. -/
inductive RedisVal
  /-- Key absent (or empty string): `Get` yields `Val() = ""`. -/
  | empty : RedisVal
  /-- Non-empty decimal string parsing to the integer `n`. -/
  | intStr (n : ℤ) : RedisVal
  /-- Non-empty string on which integer parsing fails. -/
  | corrupt : RedisVal
deriving DecidableEq

/-- State of the two Redis keys of one client:
`token_bucket:tokens:<id>` and `token_bucket:last_refill:<id>`. -/
structure BucketState where
  tokens : RedisVal
  lastRefill : RedisVal
deriving DecidableEq

/-- TokenBucketConfig (rate_limiter.go lines 16-22): capacity, refill rate
in tokens per second, refill interval in seconds.  The Redis client and the
logger are modelled at the call sites. -/
structure TokenBucketConfig where
  capacity : ℤ
  refillRate : ℚ
  refillInterval : ℚ
deriving DecidableEq

/-- TokenBucketInfo (rate_limiter.go lines 25-31). -/
structure TokenBucketInfo where
  remainingTokens : ℤ
  nextRefill : ℚ
  capacity : ℤ
  refillRate : ℚ
  refillInterval : ℚ
deriving DecidableEq

/-- Parsing of the stored token count (rate_limiter.go lines 127-134): an
empty value starts a full bucket; a parsable value is taken as is; a
non-empty unparsable value leaves the Go zero value `0`. -/
def parseTokens (capacity : ℤ) : RedisVal → ℤ
  | .empty => capacity
  | .intStr n => n
  | .corrupt => 0

/-- Parsing of the stored last-refill timestamp (rate_limiter.go lines
137-146): an absent or unparsable value falls back to `now`; a parsable
value `ts` yields `time.Unix(ts, 0)`. -/
def parseLastRefill (now : ℚ) : RedisVal → ℚ
  | .empty => now
  | .intStr ts => (ts : ℚ)
  | .corrupt => now

/-- Post-refill token count of rate_limiter.go lines 148-158:
`timeSinceLastRefill := now.Sub(lastRefill)`,
`tokensToAdd := int(RefillRate * timeSinceLastRefill.Seconds())`,
then add and clamp from above at the capacity. -/
def codeNewTokens (cfg : TokenBucketConfig) (now : ℚ) (st : BucketState) : ℤ :=
  min cfg.capacity
    (parseTokens cfg.capacity st.tokens +
      goInt (cfg.refillRate * (now - parseLastRefill now st.lastRefill)))

/-- Outcome of the pure part of `checkTokenBucket` between the `Get`
pipeline and the `Set` pipeline: either a denial, or an admission together
with the bucket record the `Set` pipeline writes. -/
inductive Decision
  | denied (info : TokenBucketInfo) : Decision
  | allowed (info : TokenBucketInfo) (write : BucketState) : Decision
deriving DecidableEq

/-- Pure decision logic of rate_limiter.go lines 126-199, applied to a
snapshot of the two keys read by the `Get` pipeline.  On denial
(`newTokens < 1`) nothing is written and the reported next refill is
`lastRefill + 1/refillRate`; otherwise one token is consumed and the `Set`
pipeline writes the new count and `now.Unix()`. -/
def bucketDecision (cfg : TokenBucketConfig) (now : ℚ) (snap : BucketState) :
    Decision :=
  if codeNewTokens cfg now snap < 1 then
    .denied
      { remainingTokens := 0
        nextRefill := parseLastRefill now snap.lastRefill + 1 / cfg.refillRate
        capacity := cfg.capacity
        refillRate := cfg.refillRate
        refillInterval := cfg.refillInterval }
  else
    .allowed
      { remainingTokens := codeNewTokens cfg now snap - 1
        nextRefill := now + 1 / cfg.refillRate
        capacity := cfg.capacity
        refillRate := cfg.refillRate
        refillInterval := cfg.refillInterval }
      { tokens := .intStr (codeNewTokens cfg now snap - 1)
        lastRefill := .intStr ⌊now⌋ }

/-- Result of `checkTokenBucket`: a decision together with the resulting
store state, or an error (a failed pipeline execution). -/
inductive CheckRes
  | ok (allowed : Bool) (info : TokenBucketInfo) (st : BucketState) : CheckRes
  | err (st : BucketState) : CheckRes
deriving DecidableEq

/-- Store state after a check. -/
def CheckRes.state : CheckRes → BucketState
  | .ok _ _ s => s
  | .err s => s

/-- Whether the check admitted the request. -/
def CheckRes.allowedB : CheckRes → Bool
  | .ok a _ _ => a
  | .err _ => false

/-- Whether the check returned an error. -/
def CheckRes.isErr : CheckRes → Bool
  | .ok _ _ _ => false
  | .err _ => true

/-- checkTokenBucket (rate_limiter.go lines 94-200).  `redisNil` models a
nil Redis client (lines 96-105: allow with a full-capacity info record);
`getFails` a failure of the `Get` pipeline (lines 121-124); `setFails` a
failure of the `Set` pipeline (lines 183-186).  A denial performs no
write; an admission writes the record produced by `bucketDecision`. -/
def checkTokenBucket (cfg : TokenBucketConfig)
    (redisNil getFails setFails : Bool) (now : ℚ) (st : BucketState) :
    CheckRes :=
  if redisNil then
    .ok true
      { remainingTokens := cfg.capacity
        nextRefill := now + cfg.refillInterval
        capacity := cfg.capacity
        refillRate := cfg.refillRate
        refillInterval := cfg.refillInterval } st
  else if getFails then
    .err st
  else
    match bucketDecision cfg now st with
    | .denied info => .ok false info st
    | .allowed info w => if setFails then .err st else .ok true info w

/-- Value carried by a response header: `int n` models the decimal output
of `strconv.Itoa` or `strconv.FormatInt`, `rat2dp q` the output of
`fmt.Sprintf` with two decimal places applied to `q`. -/
inductive HeaderValue
  | int (n : ℤ) : HeaderValue
  | rat2dp (q : ℚ) : HeaderValue
deriving DecidableEq

/-- JSON body of the 429 response (rate_limiter.go lines 74-84). -/
structure RateLimitBody where
  errorField : String
  code : String
  message : String
  remaining_tokens : ℤ
  next_refill : ℚ
  capacity : ℤ
  refill_rate : ℚ
deriving DecidableEq

/-- Events surfaced to the logging collaborator by the middleware. -/
inductive LogEvent
  /-- Error log of a failed rate-limit check (rate_limiter.go line 54). -/
  | checkFailed : LogEvent
  /-- Warning log of an exceeded rate limit (rate_limiter.go lines 67-72). -/
  | limitExceeded : LogEvent
deriving DecidableEq

/-- Observable outcome of one pass through the middleware handler. -/
structure MwOutcome where
  /-- Whether `c.Abort` was called (the request was not forwarded). -/
  aborted : Bool
  /-- Response headers set by `c.Header`, in order. -/
  headers : List (String × HeaderValue)
  /-- Status code set by `c.JSON`, when any. -/
  status : Option ℕ
  /-- JSON body set by `c.JSON`, when any. -/
  body : Option RateLimitBody
  /-- Log events emitted during the pass. -/
  logs : List LogEvent
  /-- Store state when the handler returns. -/
  store : BucketState
deriving DecidableEq

/-- Rate-limit headers (rate_limiter.go lines 61-64): limit, remaining,
reset (`info.NextRefill.Unix()`), refill rate at two decimals. -/
def rateLimitHeaders (info : TokenBucketInfo) : List (String × HeaderValue) :=
  [("X-RateLimit-Limit", .int info.capacity),
   ("X-RateLimit-Remaining", .int info.remainingTokens),
   ("X-RateLimit-Reset", .int ⌊info.nextRefill⌋),
   ("X-RateLimit-RefillRate", .rat2dp info.refillRate)]

/-- Body of the 429 response (rate_limiter.go lines 74-84). -/
def rateLimitExceededBody (info : TokenBucketInfo) : RateLimitBody :=
  { errorField := "RATE_LIMIT_ERROR"
    code := "RATE_LIMIT_EXCEEDED"
    message := "Rate limit exceeded. Please try again later."
    remaining_tokens := info.remainingTokens
    next_refill := info.nextRefill
    capacity := info.capacity
    refill_rate := info.refillRate }

/-- TokenBucketMiddleware handler body (rate_limiter.go lines 46-91).
On a check error: log and `c.Next()` with no headers and no status.  On a
completed check: set the four rate-limit headers; then either `c.Next()`
(allowed) or log, respond 429 with the JSON body and `c.Abort` (denied). -/
def TokenBucketMiddleware (cfg : TokenBucketConfig)
    (redisNil getFails setFails : Bool) (now : ℚ) (st : BucketState) :
    MwOutcome :=
  match checkTokenBucket cfg redisNil getFails setFails now st with
  | .err st' =>
      { aborted := false, headers := [], status := none, body := none
        logs := [.checkFailed], store := st' }
  | .ok allowed info st' =>
      if allowed then
        { aborted := false, headers := rateLimitHeaders info, status := none
          body := none, logs := [], store := st' }
      else
        { aborted := true, headers := rateLimitHeaders info
          status := some 429, body := some (rateLimitExceededBody info)
          logs := [.limitExceeded], store := st' }

/-- Progress of one concurrent caller through `checkTokenBucket`: it has
yet to run its `Get` pipeline, or it holds the snapshot that pipeline
returned and has yet to run its decision and possible `Set` pipeline, or
it has finished with a decision. -/
inductive CallerPhase
  | toRead : CallerPhase
  | toWrite (snap : BucketState) : CallerPhase
  | finished (allowed : Bool) : CallerPhase
deriving DecidableEq

/-- One atomic store interaction of a caller.  The `Get` pipeline snapshots
the store; the decision is computed from that snapshot and, when allowed,
the `Set` pipeline overwrites both keys with the record computed from the
snapshot — regardless of writes other callers performed in between. -/
def callerStep (cfg : TokenBucketConfig) (now : ℚ) :
    BucketState → CallerPhase → BucketState × CallerPhase
  | store, .toRead => (store, .toWrite store)
  | store, .toWrite snap =>
      match bucketDecision cfg now snap with
      | .denied _ => (store, .finished false)
      | .allowed _ w => (w, .finished true)
  | store, p => (store, p)

/-- Interleaved execution of two concurrent checks on the same key: the
schedule lists which caller takes its next atomic store interaction. -/
def runTwo (cfg : TokenBucketConfig) (now : ℚ) (sched : List Bool)
    (store : BucketState) (p0 p1 : CallerPhase) :
    BucketState × CallerPhase × CallerPhase :=
  match sched with
  | [] => (store, p0, p1)
  | b :: rest =>
      if b then
        let (store', p1') := callerStep cfg now store p1
        runTwo cfg now rest store' p0 p1'
      else
        let (store', p0') := callerStep cfg now store p0
        runTwo cfg now rest store' p0' p1

/-- Inputs of one admission check in a sequence: the store-availability
flags and the wall-clock time of the check. -/
structure CheckInput where
  redisNil : Bool
  getFails : Bool
  setFails : Bool
  now : ℚ
deriving DecidableEq

/-- Store state after a sequence of admission checks on one key. -/
def runChecks (cfg : TokenBucketConfig) (st : BucketState)
    (steps : List CheckInput) : BucketState :=
  steps.foldl
    (fun s i => (checkTokenBucket cfg i.redisNil i.getFails i.setFails i.now s).state)
    st

/-- Whether a stored token value satisfies the data-model invariant
interval: an integer value must lie between 0 and the capacity; an absent
or unparsable value carries no integer count. -/
def goodTokensVal (capacity : ℤ) : RedisVal → Bool
  | .intStr n => decide (0 ≤ n ∧ n ≤ capacity)
  | _ => true

/-- Modelled from the spec: the refill formula of section 4.1, with the
elapsed time clamped at zero and the accrual rounded down.  Used only to
compare the code against the words of the claim. -/
def refillSpecNewTokens (tokens : ℤ) (lastRefillAt now : ℚ)
    (capacity : ℤ) (ratePerSecond : ℚ) : ℤ :=
  min capacity (tokens + ⌊ratePerSecond * max 0 (now - lastRefillAt)⌋)

/-- Configuration fields read by Validate (config.go lines 166-196),
together with the token-bucket fields of the claim.  Durations are int64
nanoseconds.  Fields Validate never reads and the claims never mention are
omitted. -/
structure Config where
  appName : String
  httpPort : ℤ
  readTimeout : ℤ
  writeTimeout : ℤ
  jwtSecretKey : String
  userServiceHost : String
  orderServiceHost : String
  tokenBucketCapacity : ℤ
  tokenBucketRefillRate : ℚ
deriving DecidableEq

/-- Validate (config.go lines 166-196): returns the first failing message,
or none when the configuration is accepted. -/
def Validate (c : Config) : Option String :=
  if c.appName = "" then some "app name is required"
  else if c.httpPort ≤ 0 ∨ c.httpPort > 65535 then some "invalid server port"
  else if c.readTimeout ≤ 0 then some "read timeout must be positive"
  else if c.writeTimeout ≤ 0 then some "write timeout must be positive"
  else if c.jwtSecretKey = "" then some "JWT secret key must be set"
  else if c.userServiceHost = "" then some "user service host is required"
  else if c.orderServiceHost = "" then some "order service host is required"
  else none

/-! Helper lemmas shared by the claim theorems. -/

/-- For a nonnegative argument the Go truncation agrees with the floor. -/
theorem goInt_of_nonneg {q : ℚ} (h : 0 ≤ q) : goInt q = ⌊q⌋ :=
  if_pos h

/-- Shape of an allowed decision: the post-refill count was at least one,
the reported remainder is that count minus one, and the written record
holds the remainder and the floor of the current time. -/
theorem bucketDecision_allowed_elim {cfg : TokenBucketConfig} {now : ℚ}
    {st : BucketState} {info : TokenBucketInfo} {w : BucketState}
    (h : bucketDecision cfg now st = .allowed info w) :
    1 ≤ codeNewTokens cfg now st ∧
    info = { remainingTokens := codeNewTokens cfg now st - 1
             nextRefill := now + 1 / cfg.refillRate
             capacity := cfg.capacity
             refillRate := cfg.refillRate
             refillInterval := cfg.refillInterval } ∧
    w = { tokens := .intStr (codeNewTokens cfg now st - 1)
          lastRefill := .intStr ⌊now⌋ } := by
  unfold bucketDecision at h
  split at h
  · exact absurd h (by simp)
  · next hge =>
    injection h with h1 h2
    exact ⟨by omega, h1.symm, h2.symm⟩

/-- Shape of a denied decision: the post-refill count was below one and
the reported remainder is zero. -/
theorem bucketDecision_denied_elim {cfg : TokenBucketConfig} {now : ℚ}
    {st : BucketState} {info : TokenBucketInfo}
    (h : bucketDecision cfg now st = .denied info) :
    codeNewTokens cfg now st < 1 ∧
    info = { remainingTokens := 0
             nextRefill := parseLastRefill now st.lastRefill + 1 / cfg.refillRate
             capacity := cfg.capacity
             refillRate := cfg.refillRate
             refillInterval := cfg.refillInterval } := by
  unfold bucketDecision at h
  split at h
  · next hlt =>
    injection h with h1
    exact ⟨hlt, h1.symm⟩
  · exact absurd h (by simp)

/-- A check that admits (with working store) passed through the allowed
branch of the decision. -/
theorem checkTokenBucket_ok_true_elim {cfg : TokenBucketConfig} {now : ℚ}
    {st : BucketState} {info : TokenBucketInfo} {w : BucketState}
    (h : checkTokenBucket cfg false false false now st = .ok true info w) :
    bucketDecision cfg now st = .allowed info w := by
  unfold checkTokenBucket at h
  simp only [Bool.false_eq_true, if_false] at h
  cases hd : bucketDecision cfg now st with
  | denied i => rw [hd] at h; simp at h
  | allowed i w' =>
    rw [hd] at h
    simp only [Bool.false_eq_true, if_false] at h
    injection h with _ h1 h2
    rw [h1, h2]

/-- A check that denies (with any fate of the `Set` pipeline) passed
through the denied branch of the decision and returned the store state
it was given. -/
theorem checkTokenBucket_ok_false_elim {cfg : TokenBucketConfig}
    {sf : Bool} {now : ℚ} {st : BucketState} {info : TokenBucketInfo}
    {st2 : BucketState}
    (h : checkTokenBucket cfg false false sf now st = .ok false info st2) :
    bucketDecision cfg now st = .denied info ∧ st2 = st := by
  unfold checkTokenBucket at h
  simp only [Bool.false_eq_true, if_false] at h
  cases hd : bucketDecision cfg now st with
  | denied i =>
    rw [hd] at h
    injection h with _ h1 h2
    rw [h1, h2]
    exact ⟨rfl, rfl⟩
  | allowed i w' =>
    rw [hd] at h
    cases sf with
    | false => simp at h
    | true => simp at h

/-! Claim theorems. -/

/-- C3 counterexample: the code does not clamp a negative elapsed time.
With capacity 5, rate 1, stored tokens 3 and a stored last-refill one
second in the future (101 at now = 100), the code computes a post-refill
count of 2 — below the stored 3 — and on admission persists 1, while the
formula of the claim (elapsed clamped at zero) keeps the count at 3.  The
claim that the computation never lowers the token count below its stored
value is therefore false. -/
theorem future_lastRefill_lowers_tokens :
    codeNewTokens ⟨5, 1, 60⟩ 100 ⟨.intStr 3, .intStr 101⟩ = 2 ∧
    refillSpecNewTokens 3 101 100 5 1 = 3 ∧
    bucketDecision ⟨5, 1, 60⟩ 100 ⟨.intStr 3, .intStr 101⟩ =
      .allowed ⟨1, 101, 5, 1, 60⟩ ⟨.intStr 1, .intStr 100⟩ ∧
    (2 : ℤ) < 3 := by
  refine ⟨?_, ?_, ?_, by norm_num⟩ <;>
    norm_num [codeNewTokens, refillSpecNewTokens, bucketDecision,
      parseTokens, parseLastRefill, goInt, min_def, max_def]

/-- C3 (amended): the code computes the elapsed time without clamping and
truncates the accrual toward zero; whenever the stored last-refill
timestamp is not later than now and the rate is nonnegative, the
post-refill count equals exactly the formula of the claim,
min(capacity, tokens + floor(rate * max(0, now - lastRefillAt))). -/
theorem codeNewTokens_eq_spec_of_nonneg_elapsed
    (cfg : TokenBucketConfig) (tokens lr : ℤ) (now : ℚ)
    (hrate : 0 ≤ cfg.refillRate) (hle : (lr : ℚ) ≤ now) :
    codeNewTokens cfg now ⟨.intStr tokens, .intStr lr⟩ =
      refillSpecNewTokens tokens lr now cfg.capacity cfg.refillRate := by
  unfold codeNewTokens refillSpecNewTokens parseTokens parseLastRefill
  rw [goInt_of_nonneg (mul_nonneg hrate (by linarith)),
    max_eq_right (by linarith)]

/-- C3 witness: at capacity 5, rate 1, stored tokens 0, last refill 1000
and now 1002.5, the code and the claim formula agree. -/
theorem codeNewTokens_eq_spec_witness :
    codeNewTokens ⟨5, 1, 60⟩ (2005 / 2) ⟨.intStr 0, .intStr 1000⟩ =
      refillSpecNewTokens 0 1000 (2005 / 2) 5 1 :=
  codeNewTokens_eq_spec_of_nonneg_elapsed ⟨5, 1, 60⟩ 0 1000 (2005 / 2)
    (by norm_num) (by norm_num)

/-- C4 counterexample: with capacity 5, rate 1/2 token per second, stored
tokens 0 and last refill 1000, a check at now = 1003 refills one token
(trunc of 1.5), admits, and persists last refill 1003 = floor(now) — not
the value 1000 + 1/(1/2) = 1002 the claim requires, so the fractional
refill time is discarded rather than carried forward. -/
theorem allowed_check_discards_fractional_refill_time :
    checkTokenBucket ⟨5, 1 / 2, 60⟩ false false false 1003
      ⟨.intStr 0, .intStr 1000⟩ =
      .ok true ⟨0, 1005, 5, 1 / 2, 60⟩ ⟨.intStr 0, .intStr 1003⟩ ∧
    (1003 : ℚ) ≠
      1000 + (goInt ((1 / 2 : ℚ) * (1003 - 1000)) : ℚ) / (1 / 2) := by
  constructor
  · norm_num [checkTokenBucket, bucketDecision, codeNewTokens, parseTokens,
      parseLastRefill, goInt, min_def]
  · norm_num [goInt]

/-- C4 (amended): an allowed check persists floor(now) as the last-refill
timestamp, whatever the number of refilled tokens, discarding fractional
refill time; a denied check writes nothing, leaving the stored record
unchanged. -/
theorem lastRefill_written_floor_now_or_unchanged
    (cfg : TokenBucketConfig) (sf : Bool) (now : ℚ) (st : BucketState) :
    (∀ info w, checkTokenBucket cfg false false false now st =
        .ok true info w → w.lastRefill = .intStr ⌊now⌋) ∧
    (∀ info st2, checkTokenBucket cfg false false sf now st =
        .ok false info st2 → st2 = st) := by
  constructor
  · intro info w h
    obtain ⟨-, -, hw⟩ := bucketDecision_allowed_elim
      (checkTokenBucket_ok_true_elim h)
    rw [hw]
  · intro info st2 h
    exact (checkTokenBucket_ok_false_elim h).2

/-- C4 witness: in the admitted sample check at now = 1000 the persisted
last-refill value is floor(1000). -/
theorem lastRefill_written_floor_now_witness :
    (⟨.intStr 2, .intStr 1000⟩ : BucketState).lastRefill =
      .intStr ⌊(1000 : ℚ)⌋ :=
  (lastRefill_written_floor_now_or_unchanged ⟨5, 1, 60⟩ false 1000
    ⟨.intStr 3, .intStr 1000⟩).1 ⟨2, 1001, 5, 1, 60⟩
    ⟨.intStr 2, .intStr 1000⟩
    (by norm_num [checkTokenBucket, bucketDecision, codeNewTokens,
      parseTokens, parseLastRefill, goInt, min_def])

/-- C5 (confirmed): an admitted check reports and persists exactly the
post-refill clamped count minus one; a denied check leaves the stored
token count untouched (it performs no write at all, which in particular
never goes beyond what refill alone would produce). -/
theorem allowed_consumes_exactly_one_denied_keeps_tokens
    (cfg : TokenBucketConfig) (sf : Bool) (now : ℚ) (st : BucketState) :
    (∀ info w, checkTokenBucket cfg false false false now st =
        .ok true info w →
      w.tokens = .intStr (codeNewTokens cfg now st - 1) ∧
      info.remainingTokens = codeNewTokens cfg now st - 1) ∧
    (∀ info st2, checkTokenBucket cfg false false sf now st =
        .ok false info st2 → st2.tokens = st.tokens) := by
  constructor
  · intro info w h
    obtain ⟨-, hi, hw⟩ := bucketDecision_allowed_elim
      (checkTokenBucket_ok_true_elim h)
    rw [hw, hi]
    exact ⟨rfl, rfl⟩
  · intro info st2 h
    rw [(checkTokenBucket_ok_false_elim h).2]

/-- C5 witness: the sample admitted check persists 2 = 3 - 1 tokens. -/
theorem allowed_consumes_exactly_one_witness :
    (⟨.intStr 2, .intStr 1000⟩ : BucketState).tokens =
      .intStr (codeNewTokens ⟨5, 1, 60⟩ 1000 ⟨.intStr 3, .intStr 1000⟩ - 1) ∧
    (⟨2, 1001, 5, 1, 60⟩ : TokenBucketInfo).remainingTokens =
      codeNewTokens ⟨5, 1, 60⟩ 1000 ⟨.intStr 3, .intStr 1000⟩ - 1 :=
  (allowed_consumes_exactly_one_denied_keeps_tokens ⟨5, 1, 60⟩ false 1000
    ⟨.intStr 3, .intStr 1000⟩).1 ⟨2, 1001, 5, 1, 60⟩
    ⟨.intStr 2, .intStr 1000⟩
    (by norm_num [checkTokenBucket, bucketDecision, codeNewTokens,
      parseTokens, parseLastRefill, goInt, min_def])

/-- C10 (confirmed): a denied check performs no write at all — the
decision carries no record to persist and both the tokens key and the
last-refill key retain their prior stored values. -/
theorem denied_check_writes_nothing
    (cfg : TokenBucketConfig) (sf : Bool) (now : ℚ) (st : BucketState)
    (info : TokenBucketInfo) (st2 : BucketState)
    (h : checkTokenBucket cfg false false sf now st = .ok false info st2) :
    st2.tokens = st.tokens ∧ st2.lastRefill = st.lastRefill ∧
    bucketDecision cfg now st = .denied info := by
  obtain ⟨hd, hst⟩ := checkTokenBucket_ok_false_elim h
  rw [hst]
  exact ⟨rfl, rfl, hd⟩

/-- C10 witness: a denied check on an empty bucket at now = 1000 keeps
both stored values and produced no record to write. -/
theorem denied_check_writes_nothing_witness :
    (⟨.intStr 0, .intStr 1000⟩ : BucketState).tokens =
      (⟨.intStr 0, .intStr 1000⟩ : BucketState).tokens ∧
    (⟨.intStr 0, .intStr 1000⟩ : BucketState).lastRefill =
      (⟨.intStr 0, .intStr 1000⟩ : BucketState).lastRefill ∧
    bucketDecision ⟨5, 1, 60⟩ 1000 ⟨.intStr 0, .intStr 1000⟩ =
      .denied ⟨0, 1001, 5, 1, 60⟩ :=
  denied_check_writes_nothing ⟨5, 1, 60⟩ false 1000
    ⟨.intStr 0, .intStr 1000⟩ ⟨0, 1001, 5, 1, 60⟩
    ⟨.intStr 0, .intStr 1000⟩
    (by norm_num [checkTokenBucket, bucketDecision, codeNewTokens,
      parseTokens, parseLastRefill, goInt, min_def])

/-- C7 counterexample: with capacity 5 an unparsable stored token count is
denied immediately (it is read back as 0 tokens), while a genuinely absent
bucket is admitted (it starts full at 5 tokens): the check does not
proceed as if the bucket were absent. -/
theorem corrupt_tokens_denied_absent_allowed :
    (checkTokenBucket ⟨5, 1, 60⟩ false false false 1000
      ⟨.corrupt, .empty⟩).allowedB = false ∧
    (checkTokenBucket ⟨5, 1, 60⟩ false false false 1000
      ⟨.empty, .empty⟩).allowedB = true := by
  constructor <;>
    norm_num [checkTokenBucket, bucketDecision, codeNewTokens, parseTokens,
      parseLastRefill, goInt, min_def, CheckRes.allowedB]

/-- C7 (amended): an unparsable non-empty token count is treated as a
count of 0 (an empty bucket, not a full one); an unparsable non-empty
refill timestamp is treated exactly like an absent one (now); and a check
with a working store never propagates an error, whatever the stored
record. -/
theorem corrupt_values_parse_as_zero_and_now
    (cfg : TokenBucketConfig) (now : ℚ) (lr tv : RedisVal) :
    bucketDecision cfg now ⟨.corrupt, lr⟩ =
      bucketDecision cfg now ⟨.intStr 0, lr⟩ ∧
    bucketDecision cfg now ⟨tv, .corrupt⟩ =
      bucketDecision cfg now ⟨tv, .empty⟩ ∧
    ∀ st : BucketState,
      (checkTokenBucket cfg false false false now st).isErr = false := by
  refine ⟨rfl, rfl, fun st => ?_⟩
  unfold checkTokenBucket
  cases bucketDecision cfg now st <;> simp [CheckRes.isErr]

/-- C2 counterexample: a parsable (hence non-corrupt) stored token count
of -5 under capacity 5 survives an admission check untouched — the check
denies and writes nothing, so after the check the store still holds a
count outside the interval from 0 to the capacity. -/
theorem negative_stored_tokens_survive_check :
    checkTokenBucket ⟨5, 1, 60⟩ false false false 1000
      ⟨.intStr (-5), .intStr 1000⟩ =
      .ok false ⟨0, 1001, 5, 1, 60⟩ ⟨.intStr (-5), .intStr 1000⟩ ∧
    goodTokensVal 5 (.intStr (-5)) = false := by
  constructor
  · norm_num [checkTokenBucket, bucketDecision, codeNewTokens, parseTokens,
      parseLastRefill, goInt, min_def]
  · decide

/-- Every value an admission check itself writes into the tokens key lies
between 0 and the capacity, so the token-range invariant is preserved by
one check from any state already satisfying it. -/
theorem check_state_preserves_token_invariant
    (cfg : TokenBucketConfig) (i : CheckInput) (st : BucketState)
    (h : goodTokensVal cfg.capacity st.tokens = true) :
    goodTokensVal cfg.capacity
      ((checkTokenBucket cfg i.redisNil i.getFails i.setFails i.now
        st).state).tokens = true := by
  unfold checkTokenBucket
  cases i.redisNil with
  | true => simpa [CheckRes.state] using h
  | false =>
    cases i.getFails with
    | true => simpa [CheckRes.state] using h
    | false =>
      simp only [Bool.false_eq_true, if_false]
      cases hd : bucketDecision cfg i.now st with
      | denied info => simpa [CheckRes.state] using h
      | allowed info w =>
        obtain ⟨hge, -, hw⟩ := bucketDecision_allowed_elim hd
        have hle : codeNewTokens cfg i.now st ≤ cfg.capacity :=
          min_le_left _ _
        cases i.setFails with
        | true => simpa [CheckRes.state] using h
        | false =>
          simp only [Bool.false_eq_true, if_false, CheckRes.state]
          rw [hw]
          simp only [goodTokensVal, decide_eq_true_eq]
          omega

/-- C2 (amended): every value the checks themselves persist lies between
0 and the capacity; hence starting from a tokens record that is absent,
unparsable, or an integer in the range from 0 to the capacity, the record
stays in that set after every sequence of admission checks.  (A
pre-existing parsable out-of-range value can survive denied checks
unchanged, so the claim fails for arbitrary non-corrupt initial
contents.) -/
theorem runChecks_preserves_token_invariant
    (cfg : TokenBucketConfig) (steps : List CheckInput) (st : BucketState)
    (h : goodTokensVal cfg.capacity st.tokens = true) :
    goodTokensVal cfg.capacity (runChecks cfg st steps).tokens = true := by
  induction steps generalizing st with
  | nil => exact h
  | cons i rest ih =>
    exact ih _ (check_state_preserves_token_invariant cfg i st h)

/-- C2 witness: two checks from a full bucket of capacity 5 keep the
stored count in range. -/
theorem runChecks_preserves_token_invariant_witness :
    goodTokensVal 5
      (runChecks ⟨5, 1, 60⟩ ⟨.intStr 5, .intStr 1000⟩
        [⟨false, false, false, 1000⟩, ⟨false, false, false, 1001⟩]).tokens
      = true :=
  runChecks_preserves_token_invariant ⟨5, 1, 60⟩
    [⟨false, false, false, 1000⟩, ⟨false, false, false, 1001⟩]
    ⟨.intStr 5, .intStr 1000⟩ (by decide)

/-- C6 counterexample: when the store round trip fails, the middleware
lets the request through and logs the failure, but it produces no
decision at all — no headers are set and no body is written, so nothing
reports remainingTokens = capacity, contrary to the claim. -/
theorem store_failure_sets_no_headers :
    TokenBucketMiddleware ⟨5, 1, 60⟩ false true false 1000
      ⟨.intStr 3, .intStr 1000⟩ =
      ⟨false, [], none, none, [.checkFailed], ⟨.intStr 3, .intStr 1000⟩⟩ := by
  norm_num [TokenBucketMiddleware, checkTokenBucket]

/-- C6 (amended): on any store failure during the check — a failure of
the `Get` pipeline (rate_limiter.go lines 121-124) or of the `Set`
pipeline (lines 183-186), both returned as an error to the middleware —
the middleware applies fail-open at lines 52-58: the request is
forwarded, the failure goes to the logger only, and no failure reaches
the caller — but it reports nothing: the response carries no rate-limit
header, no status and no body. -/
theorem store_failure_fail_open_no_report
    (cfg : TokenBucketConfig) (gf sf : Bool) (now : ℚ)
    (st st2 : BucketState)
    (h : checkTokenBucket cfg false gf sf now st = .err st2) :
    TokenBucketMiddleware cfg false gf sf now st =
      ⟨false, [], none, none, [.checkFailed], st2⟩ := by
  simp [TokenBucketMiddleware, h]

/-- C6 witness: a failure of the `Set` pipeline on an admitted check
(capacity 5, rate 1, stored tokens 3, no elapsed time) takes the
fail-open path and reports nothing. -/
theorem store_failure_fail_open_no_report_witness :
    TokenBucketMiddleware ⟨5, 1, 60⟩ false false true 1000
      ⟨.intStr 3, .intStr 1000⟩ =
      ⟨false, [], none, none, [.checkFailed],
        ⟨.intStr 3, .intStr 1000⟩⟩ :=
  store_failure_fail_open_no_report ⟨5, 1, 60⟩ false true 1000
    ⟨.intStr 3, .intStr 1000⟩ ⟨.intStr 3, .intStr 1000⟩
    (by norm_num [checkTokenBucket, bucketDecision, codeNewTokens,
      parseTokens, parseLastRefill, goInt, min_def])

/-- Middleware outcome of an admitted check. -/
theorem TokenBucketMiddleware_eq_of_ok_true {cfg : TokenBucketConfig}
    {rn gf sf : Bool} {now : ℚ} {st : BucketState}
    {info : TokenBucketInfo} {w : BucketState}
    (h : checkTokenBucket cfg rn gf sf now st = .ok true info w) :
    TokenBucketMiddleware cfg rn gf sf now st =
      ⟨false, rateLimitHeaders info, none, none, [], w⟩ := by
  simp [TokenBucketMiddleware, h]

/-- Middleware outcome of a denied check. -/
theorem TokenBucketMiddleware_eq_of_ok_false {cfg : TokenBucketConfig}
    {rn gf sf : Bool} {now : ℚ} {st : BucketState}
    {info : TokenBucketInfo} {st2 : BucketState}
    (h : checkTokenBucket cfg rn gf sf now st = .ok false info st2) :
    TokenBucketMiddleware cfg rn gf sf now st =
      ⟨true, rateLimitHeaders info, some 429,
        some (rateLimitExceededBody info), [.limitExceeded], st2⟩ := by
  simp [TokenBucketMiddleware, h]

/-- C9 counterexample: a request admitted through the fail-open path (the
store round trip fails) passes through the limiter yet carries none of
the four rate-limit headers, contrary to the claim that every request
passing through the limiter carries them. -/
theorem fail_open_request_lacks_rate_limit_headers :
    (TokenBucketMiddleware ⟨7, 2, 60⟩ false true false 500
      ⟨.empty, .empty⟩).aborted = false ∧
    (TokenBucketMiddleware ⟨7, 2, 60⟩ false true false 500
      ⟨.empty, .empty⟩).headers = [] := by
  constructor <;> norm_num [TokenBucketMiddleware, checkTokenBucket]

/-- C9 (amended): every request whose check completes without a store
error carries the four rate-limit headers — limit = capacity, remaining
tokens (always at least 0), reset = the unix floor of the next refill,
and the refill rate rendered at two decimals — and every denied request
is aborted with status 429 and the JSON body of the claim; requests
admitted through the fail-open path carry no headers (see the
counterexample). -/
theorem headers_and_429_on_completed_checks
    (cfg : TokenBucketConfig) (now : ℚ) (st : BucketState) :
    (∀ info w, checkTokenBucket cfg false false false now st =
        .ok true info w →
      (TokenBucketMiddleware cfg false false false now st).headers =
        [("X-RateLimit-Limit", .int cfg.capacity),
         ("X-RateLimit-Remaining", .int info.remainingTokens),
         ("X-RateLimit-Reset", .int ⌊info.nextRefill⌋),
         ("X-RateLimit-RefillRate", .rat2dp cfg.refillRate)] ∧
      0 ≤ info.remainingTokens ∧
      (TokenBucketMiddleware cfg false false false now st).status = none ∧
      (TokenBucketMiddleware cfg false false false now st).aborted = false) ∧
    (∀ info st2, checkTokenBucket cfg false false false now st =
        .ok false info st2 →
      (TokenBucketMiddleware cfg false false false now st).headers =
        [("X-RateLimit-Limit", .int cfg.capacity),
         ("X-RateLimit-Remaining", .int info.remainingTokens),
         ("X-RateLimit-Reset", .int ⌊info.nextRefill⌋),
         ("X-RateLimit-RefillRate", .rat2dp cfg.refillRate)] ∧
      0 ≤ info.remainingTokens ∧
      (TokenBucketMiddleware cfg false false false now st).status =
        some 429 ∧
      (TokenBucketMiddleware cfg false false false now st).body =
        some ⟨"RATE_LIMIT_ERROR", "RATE_LIMIT_EXCEEDED",
          "Rate limit exceeded. Please try again later.",
          info.remainingTokens, info.nextRefill, cfg.capacity,
          cfg.refillRate⟩ ∧
      (TokenBucketMiddleware cfg false false false now st).aborted =
        true) := by
  constructor
  · intro info w h
    obtain ⟨hge, hi, -⟩ := bucketDecision_allowed_elim
      (checkTokenBucket_ok_true_elim h)
    rw [TokenBucketMiddleware_eq_of_ok_true h]
    subst hi
    refine ⟨rfl, by simp; omega, rfl, rfl⟩
  · intro info st2 h
    obtain ⟨-, hi⟩ := bucketDecision_denied_elim
      (checkTokenBucket_ok_false_elim h).1
    rw [TokenBucketMiddleware_eq_of_ok_false h]
    subst hi
    exact ⟨rfl, by simp, rfl, rfl, rfl⟩

/-- C9 witness: the sample admitted check at capacity 5, rate 1 carries
the four headers with limit 5, remaining 2, reset 1001 and rate 1. -/
theorem headers_and_429_witness :
    (TokenBucketMiddleware ⟨5, 1, 60⟩ false false false 1000
      ⟨.intStr 3, .intStr 1000⟩).headers =
      [("X-RateLimit-Limit", .int 5),
       ("X-RateLimit-Remaining", .int 2),
       ("X-RateLimit-Reset", .int ⌊(1001 : ℚ)⌋),
       ("X-RateLimit-RefillRate", .rat2dp 1)] ∧
    0 ≤ (2 : ℤ) ∧
    (TokenBucketMiddleware ⟨5, 1, 60⟩ false false false 1000
      ⟨.intStr 3, .intStr 1000⟩).status = none ∧
    (TokenBucketMiddleware ⟨5, 1, 60⟩ false false false 1000
      ⟨.intStr 3, .intStr 1000⟩).aborted = false :=
  (headers_and_429_on_completed_checks ⟨5, 1, 60⟩ 1000
    ⟨.intStr 3, .intStr 1000⟩).1 ⟨2, 1001, 5, 1, 60⟩
    ⟨.intStr 2, .intStr 1000⟩
    (by norm_num [checkTokenBucket, bucketDecision, codeNewTokens,
      parseTokens, parseLastRefill, goInt, min_def])

/-- C8 counterexample: a configuration whose token-bucket capacity is -5
and refill rate is -1 — both nonpositive — passes Validate, so such
configurations are not rejected at startup. -/
theorem validate_accepts_nonpositive_bucket_config :
    Validate ⟨"apigw", 8080, 1, 1, "secret", "localhost", "localhost",
      -5, -1⟩ = none ∧
    (-5 : ℤ) ≤ 0 ∧ (-1 : ℚ) ≤ 0 := by
  refine ⟨by decide, by norm_num, by norm_num⟩

/-- C8 (amended): Validate examines only the application name, the server
port, the read and write timeouts, the JWT secret and the two service
hosts; the token-bucket capacity and refill rate are never read, so the
validation outcome is unchanged under any replacement of them and
nonpositive values are not rejected. -/
theorem validate_ignores_token_bucket_fields
    (c : Config) (cap : ℤ) (rate : ℚ) :
    Validate { c with tokenBucketCapacity := cap,
                      tokenBucketRefillRate := rate } = Validate c := rfl

/-- C1: the claim of an indivisible load-refill-consume-store sequence is
violated by the code, which runs the `Get` pipeline and the `Set`
pipeline as two separate store interactions.  With one token stored and
no elapsed time, the interleaving read-read-write-write admits both of
two concurrent callers (2 admissions from 1 token, each persisting a
count of 0), where the claim requires exactly min(2, 1) = 1 admission —
as the fully sequential schedule indeed produces. -/
theorem interleaved_checks_admit_two_with_one_token :
    runTwo ⟨5, 1, 60⟩ 1000 [false, true, false, true]
      ⟨.intStr 1, .intStr 1000⟩ .toRead .toRead =
      (⟨.intStr 0, .intStr 1000⟩, .finished true, .finished true) ∧
    runTwo ⟨5, 1, 60⟩ 1000 [false, false, true, true]
      ⟨.intStr 1, .intStr 1000⟩ .toRead .toRead =
      (⟨.intStr 0, .intStr 1000⟩, .finished true, .finished false) := by
  constructor <;>
    norm_num [runTwo, callerStep, bucketDecision, codeNewTokens,
      parseTokens, parseLastRefill, goInt, min_def]
